import Mathlib

/-!
Verification of the template-rendering evaluator of `rash_core/src/jinja/mod.rs`
(repository pando85/ansible-rs).

The value tree (`serde_yaml::Value`), the domain result type (`Result` plus the
possibility of a Rust panic), and the functions `omit`, `render`,
`render_string`, `is_render_string` and `map_minijinja_error` are embedded
shallowly below.  The minijinja template engine and the serde_yaml scalar
parser are external crates, not part of this repository's sources; they are
modelled from the specification where marked.
-/

namespace Rash

/-- The `serde_yaml::Value` tree: null, boolean, number, string, ordered
sequence, ordered mapping (keys are arbitrary values, insertion order
preserved).  Numbers are modelled as integers; the `Tagged` variant of
serde_yaml (which, like `Null`, falls into the catch-all arm of `render`)
is not modelled. -/
inductive Yaml where
  | null : Yaml
  | bool : Bool → Yaml
  | number : Int → Yaml
  | str : String → Yaml
  | seq : List Yaml → Yaml
  | mapping : List (Yaml × Yaml) → Yaml
deriving Repr

/-- The two domain error kinds observable from the evaluator: the omit signal
(`ErrorKind::OmitParam`) and the generic rendering failure (the spec's
`RenderFailed`, covering `ErrorKind::InvalidData` and wrapped engine/parse
errors; the fine-grained kinds live in `error.rs`, outside the source slice). -/
inductive EKind where
  | omitParam : EKind
  | renderFailed : EKind
deriving Repr, DecidableEq

/-- Outcome of a Rust call: `Ok`, `Err` (with domain error kind and message),
or a panic (`Option::unwrap` on `None` aborts instead of returning). -/
inductive RO (α : Type) where
  | ok : α → RO α
  | err : EKind → String → RO α
  | panicked : String → RO α
deriving Repr

def RO.bind : RO α → (α → RO β) → RO β
  | .ok a, f => f a
  | .err k m, _ => .err k m
  | .panicked m, _ => .panicked m

@[simp] theorem RO.bind_ok (a : α) (f : α → RO β) : RO.bind (.ok a) f = f a := rfl

@[simp] theorem RO.bind_err (k : EKind) (m : String) (f : α → RO β) :
    RO.bind (.err k m) f = .err k m := rfl

@[simp] theorem RO.bind_panicked (m : String) (f : α → RO β) :
    RO.bind (.panicked m) f = .panicked m := rfl

/-- A minijinja scope (`Value` built with `context!`): an association list of
variable bindings; the most recent binding of a name shadows older ones. -/
abbrev Scope := List (String × Yaml)

def lookupScope : Scope → String → Option Yaml
  | [], _ => none
  | (k, v) :: rest, n => if k = n then some v else lookupScope rest n

/-- `const OMIT_MESSAGE: &str = "Param is omitted";` -/
def OMIT_MESSAGE : String := "Param is omitted"

/-- A minijinja engine error, reduced to the part the evaluator inspects:
its optional diagnostic detail string. -/
structure EngErr where
  detail : Option String
deriving Repr, DecidableEq

/-- The full diagnostic text of an engine error (what `Error::from` preserves). -/
def engDisplay (e : EngErr) : String := e.detail.getD "template error"

/-- The engine error produced by a strict-undefined violation.
Modelled from the spec: undefined-variable references are a hard evaluation
error; the exact detail text only matters in that it differs from
`OMIT_MESSAGE`. -/
def undefinedErr : EngErr := ⟨some "undefined value"⟩

/-- `fn omit() -> StdResult<String, MinijinjaError>`: the zero-argument
builtin always fails with the fixed marker text. -/
def «omit» : Except EngErr String := .error ⟨some OMIT_MESSAGE⟩

/-- Template expressions, as far as the evaluator's template strings use them:
literals, variable references, equality, the `default` filter and the `omit()`
builtin call.  Modelled from the spec: the expression grammar belongs to the
embedded minijinja engine, which is out of the source slice. -/
inductive Expr where
  | intLit : Int → Expr
  | strLit : String → Expr
  | boolLit : Bool → Expr
  | var : String → Expr
  | eqOp : Expr → Expr → Expr
  | defaultFilter : Expr → Expr → Expr
  | omitCall : Expr
deriving Repr

/-- A minijinja evaluation value: either the undefined value (a name missing
from the scope, tolerated until it is used) or a concrete value. -/
inductive MVal where
  | undef : MVal
  | val : Yaml → MVal
deriving Repr

mutual
/-- Structural equality of values (the engine's `==`). -/
def yamlBeq : Yaml → Yaml → Bool
  | .null, .null => true
  | .bool a, .bool b => a == b
  | .number a, .number b => a == b
  | .str a, .str b => a == b
  | .seq a, .seq b => yamlListBeq a b
  | .mapping a, .mapping b => yamlPairsBeq a b
  | _, _ => false

def yamlListBeq : List Yaml → List Yaml → Bool
  | [], [] => true
  | a :: as, b :: bs => yamlBeq a b && yamlListBeq as bs
  | _, _ => false

def yamlPairsBeq : List (Yaml × Yaml) → List (Yaml × Yaml) → Bool
  | [], [] => true
  | (ka, va) :: as, (kb, vb) :: bs =>
    yamlBeq ka kb && yamlBeq va vb && yamlPairsBeq as bs
  | _, _ => false
end

/-- Engine truthiness of a value (for `if` conditions). -/
def truthy : Yaml → Bool
  | .null => false
  | .bool b => b
  | .number n => n != 0
  | .str s => !s.isEmpty
  | .seq l => !l.isEmpty
  | .mapping l => !l.isEmpty

mutual
/-- Quoted/nested printing of a value (list and mapping elements).
Modelled from the spec: the engine's exact print format for containers is
external; the claims only exercise scalar printing. -/
def printItem : Yaml → String
  | .null => "none"
  | .bool true => "true"
  | .bool false => "false"
  | .number n => toString n
  | .str s => "\"" ++ s ++ "\""
  | .seq l => "[" ++ printItems l ++ "]"
  | .mapping l => "\x7b" ++ printEntries l ++ "\x7d"

def printItems : List Yaml → String
  | [] => ""
  | [x] => printItem x
  | x :: xs => printItem x ++ ", " ++ printItems xs

def printEntries : List (Yaml × Yaml) → String
  | [] => ""
  | [(k, v)] => printItem k ++ ": " ++ printItem v
  | (k, v) :: xs => printItem k ++ ": " ++ printItem v ++ ", " ++ printEntries xs
end

/-- How `\x7b\x7b expr \x7d\x7d` output renders a value: top-level strings are
printed without quotes, everything else as `printItem`. -/
def printVal : Yaml → String
  | .str s => s
  | v => printItem v

/-- Evaluation of a template expression against a scope.
Modelled from the spec: strict-undefined (using an undefined value is an
error), and the `default` filter evaluates its fallback only when the
subject is undefined (so `omit()` only takes effect when the fallback is
actually evaluated). -/
def evalExpr : Expr → Scope → Except EngErr MVal
  | .intLit n, _ => .ok (.val (.number n))
  | .strLit s, _ => .ok (.val (.str s))
  | .boolLit b, _ => .ok (.val (.bool b))
  | .var n, vars =>
    match lookupScope vars n with
    | some v => .ok (.val v)
    | none => .ok .undef
  | .eqOp a b, vars =>
    match evalExpr a vars, evalExpr b vars with
    | .ok (.val xv), .ok (.val yv) => .ok (.val (.bool (yamlBeq xv yv)))
    | .ok .undef, _ => .error undefinedErr
    | .ok _, .ok .undef => .error undefinedErr
    | .error e, _ => .error e
    | _, .error e => .error e
  | .defaultFilter v f, vars =>
    match evalExpr v vars with
    | .ok .undef => evalExpr f vars
    | .ok (.val xv) => .ok (.val xv)
    | .error e => .error e
  | .omitCall, _ =>
    match «omit» with
    | .ok s => .ok (.val (.str s))
    | .error e => .error e

/-- One parsed piece of a template: literal text, an interpolation
`\x7b\x7b e \x7d\x7d`, or an `\x7b% if %\x7d … \x7b% else %\x7d … \x7b% endif %\x7d` block. -/
inductive Chunk where
  | lit : String → Chunk
  | expr : Expr → Chunk
  | ifElse : Expr → List Chunk → List Chunk → Chunk
deriving Repr

mutual
/-- Render one template chunk against a scope. -/
def renderChunk : Chunk → Scope → Except EngErr String
  | .lit s, _ => .ok s
  | .expr e, vars =>
    match evalExpr e vars with
    | .ok .undef => .error undefinedErr
    | .ok (.val v) => .ok (printVal v)
    | .error err => .error err
  | .ifElse c t e, vars =>
    match evalExpr c vars with
    | .ok .undef => .error undefinedErr
    | .ok (.val v) => if truthy v then renderChunks t vars else renderChunks e vars
    | .error err => .error err

/-- Render a chunk list against a scope, concatenating the pieces; the first
failing chunk aborts the render.  Literal chunks are emitted verbatim, so all
whitespace of the template text (including a trailing newline, which the
engine is configured to keep) survives into the output. -/
def renderChunks : List Chunk → Scope → Except EngErr String
  | [], _ => .ok ""
  | c :: cs, vars =>
    match renderChunk c vars with
    | .error e => .error e
    | .ok s =>
      match renderChunks cs vars with
      | .error e => .error e
      | .ok rest => .ok (s ++ rest)
end

/-! Template text parsing.  Modelled from the spec: the concrete syntax
(`\x7b\x7b … \x7d\x7d` interpolation, `\x7b% … %\x7d` statements) belongs to the external
engine; the subset used by the evaluator's call sites is parsed here. -/

/-- The single-quote character. -/
def squote : Char := Char.ofNat 39

/-- The opening brace character. -/
def obrace : Char := Char.ofNat 123

/-- The closing brace character. -/
def cbrace : Char := Char.ofNat 125

def isIdentStart (c : Char) : Bool := c.isAlpha || c = '_'

def isIdentChar (c : Char) : Bool := c.isAlphanum || c = '_'

/-- Expression tokens: identifiers, integers, single-quoted strings,
`==`, the filter pipe, parentheses. -/
inductive ETok where
  | id : String → ETok
  | num : Int → ETok
  | strTok : String → ETok
  | eqeq : ETok
  | pipe : ETok
  | lpar : ETok
  | rpar : ETok
deriving Repr, DecidableEq

def digitsToNat (l : List Char) : Nat :=
  l.foldl (fun a c => a * 10 + (c.toNat - 48)) 0

/-- Split a char list at the closing single quote. -/
def takeQuoted : List Char → Option (List Char × List Char)
  | [] => none
  | c :: rest =>
    if c = squote then some ([], rest)
    else match takeQuoted rest with
      | some (a, b) => some (c :: a, b)
      | none => none

/-- Tokenize an expression (fuel bounds the recursion; callers pass the
input length plus one, which always suffices since every step consumes at
least one character). -/
def exTokenize : Nat → List Char → Except String (List ETok)
  | 0, _ => .error "tokenizer fuel exhausted"
  | _, [] => .ok []
  | fuel + 1, c :: rest =>
    if c.isWhitespace then exTokenize fuel rest
    else if c.isDigit then
      let ds := List.takeWhile Char.isDigit (c :: rest)
      let rest2 := List.dropWhile Char.isDigit (c :: rest)
      match exTokenize fuel rest2 with
      | .ok ts => .ok (.num (Int.ofNat (digitsToNat ds)) :: ts)
      | .error m => .error m
    else if isIdentStart c then
      let ds := List.takeWhile isIdentChar (c :: rest)
      let rest2 := List.dropWhile isIdentChar (c :: rest)
      match exTokenize fuel rest2 with
      | .ok ts => .ok (.id (String.mk ds) :: ts)
      | .error m => .error m
    else if c = squote then
      match takeQuoted rest with
      | some (a, rest2) =>
        match exTokenize fuel rest2 with
        | .ok ts => .ok (.strTok (String.mk a) :: ts)
        | .error m => .error m
      | none => .error "unterminated string literal"
    else if c = '=' then
      match rest with
      | c2 :: rest2 =>
        if c2 = '=' then
          match exTokenize fuel rest2 with
          | .ok ts => .ok (.eqeq :: ts)
          | .error m => .error m
        else .error "unexpected character ="
      | [] => .error "unexpected character ="
    else if c = '|' then
      match exTokenize fuel rest with
      | .ok ts => .ok (.pipe :: ts)
      | .error m => .error m
    else if c = '(' then
      match exTokenize fuel rest with
      | .ok ts => .ok (.lpar :: ts)
      | .error m => .error m
    else if c = ')' then
      match exTokenize fuel rest with
      | .ok ts => .ok (.rpar :: ts)
      | .error m => .error m
    else .error "unexpected character"

mutual
/-- Parse an expression atom: literal, variable, or the `omit()` call
(the only function the evaluator's templates invoke). -/
def parseAtom : Nat → List ETok → Except String (Expr × List ETok)
  | 0, _ => .error "fuel exhausted"
  | _, .num n :: rest => .ok (.intLit n, rest)
  | _, .strTok s :: rest => .ok (.strLit s, rest)
  | _ + 1, .id x :: rest =>
    if x = "true" then .ok (.boolLit true, rest)
    else if x = "false" then .ok (.boolLit false, rest)
    else match rest with
      | .lpar :: rest2 =>
        if x = "omit" then
          match rest2 with
          | .rpar :: rest3 => .ok (.omitCall, rest3)
          | _ => .error "omit takes no arguments"
        else .error "unknown function"
      | _ => .ok (.var x, rest)
  | _, _ => .error "expected expression atom"

/-- Parse filter applications `atom | default(expr) | …` (only the
`default` filter is modelled). -/
def parsePipes : Nat → Expr → List ETok → Except String (Expr × List ETok)
  | 0, _, _ => .error "fuel exhausted"
  | fuel + 1, a, .pipe :: .id f :: .lpar :: rest =>
    if f = "default" then
      match parseEq fuel rest with
      | .ok (arg, .rpar :: rest2) => parsePipes fuel (.defaultFilter a arg) rest2
      | .ok _ => .error "expected closing parenthesis"
      | .error m => .error m
    else .error "unknown filter"
  | _, a, rest => .ok (a, rest)

/-- Parse a full expression: a pipeline, optionally compared with `==`. -/
def parseEq : Nat → List ETok → Except String (Expr × List ETok)
  | 0, _ => .error "fuel exhausted"
  | fuel + 1, toks =>
    match parseAtom fuel toks with
    | .error m => .error m
    | .ok (a, rest) =>
      match parsePipes fuel a rest with
      | .error m => .error m
      | .ok (l, .eqeq :: rest2) =>
        match parseAtom fuel rest2 with
        | .error m => .error m
        | .ok (b, rest3) =>
          match parsePipes fuel b rest3 with
          | .error m => .error m
          | .ok (r, rest4) => .ok (.eqOp l r, rest4)
      | .ok (l, rest2) => .ok (l, rest2)
end

/-- Parse an expression from its source text. -/
def parseExprText (cs : List Char) : Except String Expr :=
  match exTokenize (cs.length + 1) cs with
  | .error m => .error m
  | .ok toks =>
    match parseEq (toks.length + 1) toks with
    | .ok (e, []) => .ok e
    | .ok _ => .error "trailing tokens in expression"
    | .error m => .error m

/-- Take the literal text up to the next tag opener (`\x7b\x7b` or `\x7b%`),
returning it together with the remaining input. -/
def takeLit : List Char → List Char × List Char
  | [] => ([], [])
  | c :: rest =>
    if c = obrace then
      match rest with
      | c2 :: _ =>
        if c2 = obrace || c2 = '%' then ([], c :: rest)
        else
          let (a, b) := takeLit rest
          (c :: a, b)
      | [] => ([c], [])
    else
      let (a, b) := takeLit rest
      (c :: a, b)

/-- Take the content up to (and dropping) the two-character closer `a b`. -/
def takeClose (a b : Char) : List Char → Option (List Char × List Char)
  | c1 :: c2 :: rest =>
    if c1 = a && c2 = b then some ([], rest)
    else match takeClose a b (c2 :: rest) with
      | some (x, y) => some (c1 :: x, y)
      | none => none
  | _ => none

/-- Trim surrounding whitespace from a char list. -/
def trimChars (cs : List Char) : List Char :=
  ((cs.dropWhile Char.isWhitespace).reverse.dropWhile Char.isWhitespace).reverse

/-- The content of an `\x7b% … %\x7d` statement tag. -/
inductive TagKind where
  | elseTag : TagKind
  | endifTag : TagKind
  | ifTag : List Char → TagKind
  | badTag : TagKind
deriving Repr

def classifyTag (content : List Char) : TagKind :=
  match trimChars content with
  | ['e', 'l', 's', 'e'] => .elseTag
  | ['e', 'n', 'd', 'i', 'f'] => .endifTag
  | 'i' :: 'f' :: c :: rest => if c.isWhitespace then .ifTag rest else .badTag
  | _ => .badTag

/-- Parse template text into chunks.  Returns the chunks parsed up to either
the end of input (`none`) or, when `inIf` is set, a control tag (`some tag`,
with the input remaining after the tag).  Fuel bounds the recursion; the
input length plus one always suffices since every step consumes at least
one character of input. -/
def parseChunks : Nat → List Char → Bool → Except String (List Chunk × Option TagKind × List Char)
  | 0, _, _ => .error "template parser fuel exhausted"
  | fuel + 1, cs, inIf =>
    let (litcs, rest) := takeLit cs
    let litChunks : List Chunk := if litcs.isEmpty then [] else [.lit (String.mk litcs)]
    match rest with
    | [] => .ok (litChunks, none, [])
    | _ :: c2 :: rest2 =>
      if c2 = obrace then
        match takeClose cbrace cbrace rest2 with
        | none => .error "unclosed expression tag"
        | some (content, rest3) =>
          match parseExprText (trimChars content) with
          | .error m => .error m
          | .ok e =>
            match parseChunks fuel rest3 inIf with
            | .error m => .error m
            | .ok (more, stop, rest4) => .ok (litChunks ++ .expr e :: more, stop, rest4)
      else
        match takeClose '%' cbrace rest2 with
        | none => .error "unclosed statement tag"
        | some (content, rest3) =>
          match classifyTag content with
          | .elseTag =>
            if inIf then .ok (litChunks, some .elseTag, rest3)
            else .error "unexpected else"
          | .endifTag =>
            if inIf then .ok (litChunks, some .endifTag, rest3)
            else .error "unexpected endif"
          | .ifTag condcs =>
            match parseExprText (trimChars condcs) with
            | .error m => .error m
            | .ok cond =>
              match parseChunks fuel rest3 true with
              | .error m => .error m
              | .ok (thn, some .elseTag, rest4) =>
                match parseChunks fuel rest4 true with
                | .error m => .error m
                | .ok (els, some .endifTag, rest5) =>
                  match parseChunks fuel rest5 inIf with
                  | .error m => .error m
                  | .ok (more, stop, rest6) =>
                    .ok (litChunks ++ .ifElse cond thn els :: more, stop, rest6)
                | .ok _ => .error "expected endif"
              | .ok (thn, some .endifTag, rest4) =>
                match parseChunks fuel rest4 inIf with
                | .error m => .error m
                | .ok (more, stop, rest5) =>
                  .ok (litChunks ++ .ifElse cond thn [] :: more, stop, rest5)
              | .ok _ => .error "unterminated if"
          | .badTag => .error "unsupported statement tag"
    | [_] => .error "stray brace at end of template"

/-- Compile a template string (the model of `env.add_template`). -/
def parseTemplate (s : String) : Except String (List Chunk) :=
  match parseChunks (s.data.length + 1) s.data false with
  | .error m => .error m
  | .ok (chunks, none, _) => .ok chunks
  | .ok (_, some _, _) => .error "unexpected control tag"

/-- `fn map_minijinja_error(e: MinijinjaError) -> Error`: an engine error whose
detail is exactly `OMIT_MESSAGE` becomes the omit domain error; any other
engine error is wrapped, keeping its diagnostic text. -/
def map_minijinja_error (e : EngErr) : EKind × String :=
  match e.detail with
  | some d => if d = OMIT_MESSAGE then (.omitParam, OMIT_MESSAGE) else (.renderFailed, engDisplay e)
  | none => (.renderFailed, engDisplay e)

/-- `pub fn render_string(s: &str, vars: &Value) -> Result<String>`: compile
the template (a compile error is wrapped as a generic error by the `?`
conversion), render it, and classify any engine failure via
`map_minijinja_error`. -/
def render_string (s : String) (vars : Scope) : RO String :=
  match parseTemplate s with
  | .error m => .err .renderFailed m
  | .ok t =>
    match renderChunks t vars with
    | .ok out => .ok out
    | .error e =>
      match map_minijinja_error e with
      | (k, m) => .err k m

/-- `serde_yaml::from_str` on rendered text.
Modelled from the spec: the structured-data parser re-parsing a rendered
unit is the external serde_yaml crate; the scalar subset is modelled (an
empty document is null, `null`/`~` are null, `true`/`false` are booleans,
optionally-signed digit runs are numbers, anything else is the string
itself with surrounding whitespace stripped). -/
def parseYaml (s : String) : Except String Yaml :=
  let t := trimChars s.data
  if t.isEmpty then .ok .null
  else if t = "null".data || t = ['~'] then .ok .null
  else if t = "true".data then .ok (.bool true)
  else if t = "false".data then .ok (.bool false)
  else if t.all Char.isDigit then .ok (.number (Int.ofNat (digitsToNat t)))
  else match t with
    | '-' :: ds =>
      if !ds.isEmpty && ds.all Char.isDigit then .ok (.number (-(Int.ofNat (digitsToNat ds))))
      else .ok (.str (String.mk t))
    | _ => .ok (.str (String.mk t))

/-- The debug form of a value, as used by the catch-all arm's error text. -/
def yamlDebug : Yaml → String
  | .null => "Null"
  | .bool b => "Bool(" ++ toString b ++ ")"
  | .number n => "Number(" ++ toString n ++ ")"
  | .str s => "String(\"" ++ s ++ "\")"
  | .seq _ => "Sequence(..)"
  | .mapping _ => "Mapping(..)"

/-- The panic message of `Option::unwrap` on `None`
(`k.as_str().unwrap()` on a non-string mapping key). -/
def unwrapPanicMsg : String := "called `Option::unwrap()` on a `None` value"

mutual
/-- `pub fn render(value: YamlValue, vars: &Value) -> Result<YamlValue>`:
the recursive tree renderer.  Strings are rendered and re-parsed; numbers
and booleans are returned unchanged; sequences render each element against
the incoming scope; mappings render values left to right, extending the
running scope with each rendered entry; every other value (including
`Null`, which has no arm of its own) hits the catch-all error. -/
def render : Yaml → Scope → RO Yaml
  | .str s, vars =>
    match render_string s vars with
    | .ok out =>
      match parseYaml out with
      | .ok y => .ok y
      | .error m => .err .renderFailed m
    | .err k m => .err k m
    | .panicked m => .panicked m
  | .number n, _ => .ok (.number n)
  | .bool b, _ => .ok (.bool b)
  | .seq v, vars => RO.bind (renderSeq v vars) (fun l => .ok (.seq l))
  | .mapping x, vars => RO.bind (renderMap x vars) (fun l => .ok (.mapping l))
  | .null, _ => .err .renderFailed (yamlDebug .null ++ " is not a valid render value")

/-- The sequence arm's `v.iter().map(|x| render(x.clone(), vars)).collect()`:
each element is rendered against the same incoming scope and the first
failure aborts the collection. -/
def renderSeq : List Yaml → Scope → RO (List Yaml)
  | [], _ => .ok []
  | x :: xs, vars =>
    RO.bind (render x vars) (fun r =>
      RO.bind (renderSeq xs vars) (fun rs => .ok (r :: rs)))

/-- The mapping arm's loop: render the value against the current running
scope, then bind the original key name (`k.as_str().unwrap()` — a panic when
the key is not a string) to the rendered value in the running scope before
the next entry, and keep the original key in the output. -/
def renderMap : List (Yaml × Yaml) → Scope → RO (List (Yaml × Yaml))
  | [], _ => .ok []
  | (k, v) :: rest, vars =>
    RO.bind (render v vars) (fun r =>
      match k with
      | .str ks =>
        RO.bind (renderMap rest ((ks, r) :: vars)) (fun rs => .ok ((k, r) :: rs))
      | _ => .panicked unwrapPanicMsg)
end

/-- `pub fn is_render_string(s: &str, vars: &Value) -> Result<bool>`: wrap the
expression in an if/else template producing the literal `true`/`false`, render
it, and map the exact output `"false"` to `false`, anything else to `true`. -/
def is_render_string (s : String) (vars : Scope) : RO Bool :=
  match render_string ("\x7b% if " ++ s ++ " %\x7dtrue\x7b% else %\x7dfalse\x7b% endif %\x7d") vars with
  | .ok out => if out = "false" then .ok false else .ok true
  | .err k m => .err k m
  | .panicked m => .panicked m

/-- Whether a mapping key is a string (`k.as_str()` returns `Some`). -/
def isStringKey : Yaml → Bool
  | .str _ => true
  | _ => false

/-! Helper lemmas. -/

theorem RO.bind_assoc (x : RO α) (f : α → RO β) (g : β → RO γ) :
    RO.bind (RO.bind x f) g = RO.bind x (fun a => RO.bind (f a) g) := by
  cases x <;> rfl

/-- Inverting a successful render of one mapping entry: the key must have been
a string, its value rendered successfully, and the remaining entries rendered
against the extended running scope. -/
theorem renderMap_cons_ok {k v : Yaml} {rest : List (Yaml × Yaml)} {vars : Scope}
    {l : List (Yaml × Yaml)} (h : renderMap ((k, v) :: rest) vars = RO.ok l) :
    ∃ ks r rs, k = Yaml.str ks ∧ render v vars = RO.ok r ∧
      renderMap rest ((ks, r) :: vars) = RO.ok rs ∧ l = (k, r) :: rs := by
  rw [renderMap] at h
  cases hr : render v vars with
  | ok r =>
    rw [hr] at h
    cases k with
    | str ks =>
      simp only [RO.bind_ok] at h
      cases hm : renderMap rest ((ks, r) :: vars) with
      | ok rs =>
        rw [hm] at h
        simp only [RO.bind_ok, RO.ok.injEq] at h
        exact ⟨ks, r, rs, rfl, rfl, hm, h.symm⟩
      | err k' m' => rw [hm] at h; simp at h
      | panicked m' => rw [hm] at h; simp at h
    | null => simp at h
    | bool b => simp at h
    | number n => simp at h
    | seq s => simp at h
    | mapping m => simp at h
  | err k' m' => rw [hr] at h; simp at h
  | panicked m' => rw [hr] at h; simp at h

/-- A successfully rendered mapping keeps the original keys in order. -/
theorem renderMap_keys :
    ∀ (entries : List (Yaml × Yaml)) (vars : Scope) (l : List (Yaml × Yaml)),
      renderMap entries vars = RO.ok l → l.map Prod.fst = entries.map Prod.fst := by
  intro entries
  induction entries with
  | nil =>
    intro vars l h
    rw [renderMap] at h
    simp only [RO.ok.injEq] at h
    simp [← h]
  | cons kv rest ih =>
    intro vars l h
    obtain ⟨k, v⟩ := kv
    obtain ⟨ks, r, rs, hk, _, hm, hl⟩ := renderMap_cons_ok h
    subst hl
    simp [ih _ _ hm]

/-- A successfully rendered mapping had only string keys. -/
theorem renderMap_ok_string_keys :
    ∀ (entries : List (Yaml × Yaml)) (vars : Scope) (l : List (Yaml × Yaml)),
      renderMap entries vars = RO.ok l → ∀ kv ∈ entries, isStringKey kv.1 = true := by
  intro entries
  induction entries with
  | nil => intro vars l _ kv hkv; cases hkv
  | cons kv0 rest ih =>
    intro vars l h kv hkv
    obtain ⟨k, v⟩ := kv0
    obtain ⟨ks, r, rs, hk, _, hm, _⟩ := renderMap_cons_ok h
    rcases List.mem_cons.mp hkv with hkv | hkv
    · subst hkv; subst hk; rfl
    · exact ih _ _ hm kv hkv

/-- Inverting a successful render of a mapping node. -/
theorem render_mapping_ok {entries : List (Yaml × Yaml)} {vars : Scope} {y : Yaml}
    (h : render (Yaml.mapping entries) vars = RO.ok y) :
    ∃ l, renderMap entries vars = RO.ok l ∧ y = Yaml.mapping l := by
  rw [render] at h
  cases hm : renderMap entries vars with
  | ok l =>
    rw [hm] at h
    simp only [RO.bind_ok, RO.ok.injEq] at h
    exact ⟨l, rfl, h.symm⟩
  | err k m => rw [hm] at h; simp at h
  | panicked m => rw [hm] at h; simp at h

/-- Inverting a successful render of a sequence node. -/
theorem render_seq_ok {v : List Yaml} {vars : Scope} {y : Yaml}
    (h : render (Yaml.seq v) vars = RO.ok y) :
    ∃ rs, renderSeq v vars = RO.ok rs ∧ y = Yaml.seq rs := by
  rw [render] at h
  cases hm : renderSeq v vars with
  | ok rs =>
    rw [hm] at h
    simp only [RO.bind_ok, RO.ok.injEq] at h
    exact ⟨rs, rfl, h.symm⟩
  | err k m => rw [hm] at h; simp at h
  | panicked m => rw [hm] at h; simp at h

/-- Inverting a successful render of one sequence element. -/
theorem renderSeq_cons_ok {x : Yaml} {xs : List Yaml} {vars : Scope} {rs : List Yaml}
    (h : renderSeq (x :: xs) vars = RO.ok rs) :
    ∃ r rs', render x vars = RO.ok r ∧ renderSeq xs vars = RO.ok rs' ∧ rs = r :: rs' := by
  rw [renderSeq] at h
  cases hr : render x vars with
  | ok r =>
    rw [hr] at h
    simp only [RO.bind_ok] at h
    cases hm : renderSeq xs vars with
    | ok rs' =>
      rw [hm] at h
      simp only [RO.bind_ok, RO.ok.injEq] at h
      exact ⟨r, rs', rfl, rfl, h.symm⟩
    | err k m => rw [hm] at h; simp at h
    | panicked m => rw [hm] at h; simp at h
  | err k m => rw [hr] at h; simp at h
  | panicked m => rw [hr] at h; simp at h

/-- Elementwise characterisation of a successful sequence render: same length,
and every element was rendered against the (one, incoming) scope `vars`. -/
theorem renderSeq_ok_get :
    ∀ (v : List Yaml) (vars : Scope) (rs : List Yaml), renderSeq v vars = RO.ok rs →
      rs.length = v.length ∧
        ∀ i (h1 : i < v.length) (h2 : i < rs.length),
          render (v.get ⟨i, h1⟩) vars = RO.ok (rs.get ⟨i, h2⟩) := by
  intro v
  induction v with
  | nil =>
    intro vars rs h
    rw [renderSeq] at h
    simp only [RO.ok.injEq] at h
    subst h
    exact ⟨rfl, fun i h1 _ => absurd h1 (Nat.not_lt_zero i)⟩
  | cons x xs ih =>
    intro vars rs h
    obtain ⟨r, rs', hr, hm, hrs⟩ := renderSeq_cons_ok h
    subst hrs
    obtain ⟨hlen, hget⟩ := ih vars rs' hm
    refine ⟨by simp [hlen], ?_⟩
    intro i h1 h2
    cases i with
    | zero => simpa using hr
    | succ j =>
      have h1' : j < xs.length := Nat.lt_of_succ_lt_succ h1
      have h2' : j < rs'.length := Nat.lt_of_succ_lt_succ h2
      simpa using hget j h1' h2'

/-- The first failing element of a sequence aborts the whole sequence render
with that same error. -/
theorem renderSeq_first_err :
    ∀ (pre : List Yaml) (x : Yaml) (rest : List Yaml) (vars : Scope) (k : EKind) (m : String),
      (∀ y ∈ pre, ∃ r, render y vars = RO.ok r) → render x vars = RO.err k m →
      renderSeq (pre ++ x :: rest) vars = RO.err k m := by
  intro pre
  induction pre with
  | nil =>
    intro x rest vars k m _ hx
    rw [List.nil_append, renderSeq, hx]
    rfl
  | cons y pre' ih =>
    intro x rest vars k m hpre hx
    obtain ⟨r, hr⟩ := hpre y (List.mem_cons_self y pre')
    rw [List.cons_append, renderSeq, hr, RO.bind_ok,
      ih x rest vars k m (fun z hz => hpre z (List.mem_cons_of_mem y hz)) hx]
    rfl

/-! Claim theorems. -/

/-- C2 counterexample: `render` applied to the null value under the empty
scope does not return the value unchanged — `YamlValue::Null` has no arm of
its own in the `match`, so it falls into the catch-all error arm. -/
theorem C2_counterexample_null : render Yaml.null [] ≠ RO.ok Yaml.null := by
  intro h
  exact RO.noConfusion h

/-- C2 (amended): for every scope, `render` applied to a boolean or a number
value returns that value unchanged; applied to the null value it instead
returns the generic rendering-failure domain error of the catch-all arm
(`"Null is not a valid render value"`). -/
theorem C2_bool_number_identity :
    (∀ (b : Bool) (vars : Scope), render (Yaml.bool b) vars = RO.ok (Yaml.bool b)) ∧
    (∀ (n : Int) (vars : Scope), render (Yaml.number n) vars = RO.ok (Yaml.number n)) ∧
    (∀ vars : Scope,
      render Yaml.null vars = RO.err .renderFailed "Null is not a valid render value") :=
  ⟨fun _ _ => rfl, fun _ _ => rfl, fun _ => rfl⟩

/-- C3 counterexample: a mapping whose (first) non-string key has a value
that renders successfully makes `render` panic at `k.as_str().unwrap()`
instead of returning a `RenderFailed` domain error. -/
theorem C3_counterexample_panic :
    render (Yaml.mapping [(Yaml.bool true, Yaml.bool true)]) [] =
      RO.panicked unwrapPanicMsg := rfl

/-- C3 (amended): for every mapping containing at least one non-string key,
`render` never returns a rendered tree; but instead of a `RenderFailed`
domain error for the key, it either propagates an error from rendering an
earlier value or panics at the key-name unwrap — in particular, when the
first entry's key is non-string and its value renders successfully, the
result is the `Option::unwrap` panic. -/
theorem C3_nonstring_key_no_tree :
    (∀ (entries : List (Yaml × Yaml)) (vars : Scope),
      entries.any (fun kv => !isStringKey kv.1) = true →
      ∀ y, render (Yaml.mapping entries) vars ≠ RO.ok y) ∧
    (∀ (k v : Yaml) (rest : List (Yaml × Yaml)) (vars : Scope) (r : Yaml),
      isStringKey k = false → render v vars = RO.ok r →
      render (Yaml.mapping ((k, v) :: rest)) vars = RO.panicked unwrapPanicMsg) := by
  constructor
  · intro entries vars hany y h
    obtain ⟨l, hm, _⟩ := render_mapping_ok h
    obtain ⟨kv, hkv, hns⟩ := List.any_eq_true.mp hany
    have := renderMap_ok_string_keys entries vars l hm kv hkv
    simp [this] at hns
  · intro k v rest vars r hk hv
    rw [render, renderMap, hv, RO.bind_ok]
    cases k with
    | str ks => simp [isStringKey] at hk
    | null => rfl
    | bool b => rfl
    | number n => rfl
    | seq s => rfl
    | mapping m => rfl

/-- C3 witness: both parts applied at the concrete mapping
`\x7b true: true \x7d` under the empty scope. -/
theorem C3_nonstring_key_no_tree_witness :
    (∀ y, render (Yaml.mapping [(Yaml.bool true, Yaml.bool true)]) [] ≠ RO.ok y) ∧
    render (Yaml.mapping [(Yaml.bool true, Yaml.bool true)]) [] =
      RO.panicked unwrapPanicMsg :=
  ⟨C3_nonstring_key_no_tree.1 [(Yaml.bool true, Yaml.bool true)] [] (by decide),
   C3_nonstring_key_no_tree.2 (Yaml.bool true) (Yaml.bool true) [] [] (Yaml.bool true)
     (by decide) rfl⟩

/-- C4: classification of an engine error — a diagnostic detail exactly equal
to the fixed omit marker yields the omit domain error with no extra payload;
any other engine error becomes the generic rendering failure, keeping the
original diagnostic text. -/
theorem C4_error_classification :
    (∀ e : EngErr, e.detail = some OMIT_MESSAGE →
      map_minijinja_error e = (EKind.omitParam, OMIT_MESSAGE)) ∧
    (∀ e : EngErr, e.detail ≠ some OMIT_MESSAGE →
      map_minijinja_error e = (EKind.renderFailed, engDisplay e)) := by
  constructor
  · intro e h
    rw [map_minijinja_error, h]
    simp
  · intro e h
    rw [map_minijinja_error]
    cases hd : e.detail with
    | none => rfl
    | some d =>
      rw [hd] at h
      have hne : ¬ d = OMIT_MESSAGE := fun hc => h (by rw [hc])
      simp [hne]

/-- C4 witness: the classifier applied to the omit marker error and to an
ordinary engine error. -/
theorem C4_error_classification_witness :
    map_minijinja_error ⟨some OMIT_MESSAGE⟩ = (EKind.omitParam, OMIT_MESSAGE) ∧
    map_minijinja_error ⟨some "boom"⟩ = (EKind.renderFailed, engDisplay ⟨some "boom"⟩) :=
  ⟨C4_error_classification.1 ⟨some OMIT_MESSAGE⟩ rfl,
   C4_error_classification.2 ⟨some "boom"⟩ (by decide)⟩

/-- C5: the `omit()` builtin takes no arguments and always fails with the
fixed marker; rendering `\x7b\x7b x | default(omit()) \x7d\x7d` against the empty scope
fails with the omit domain error, while against a scope binding `x` to `3` it
succeeds and yields `"3"` (the fallback is only evaluated when needed). -/
theorem C5_omit_default :
    «omit» = Except.error ⟨some OMIT_MESSAGE⟩ ∧
    render_string "\x7b\x7b x | default(omit()) \x7d\x7d" [] =
      RO.err EKind.omitParam OMIT_MESSAGE ∧
    render_string "\x7b\x7b x | default(omit()) \x7d\x7d" [("x", Yaml.number 3)] =
      RO.ok "3" :=
  ⟨rfl, rfl, rfl⟩

/-- C1: mapping rendering processes keys in original insertion order against
a running scope that starts at the incoming scope: a successful result is a
mapping with the original keys in original order; for each entry, the value
is rendered against the current running scope and the running scope is then
extended by binding the original key name to the rendered value before the
remaining entries are rendered; and the spec's example
`\x7b a: "\x7b\x7b 1 \x7d\x7d", b: "\x7b\x7b a \x7d\x7d" \x7d` under the empty scope
renders to `\x7b a: 1, b: 1 \x7d`. -/
theorem C1_mapping_scope_chain :
    (∀ (entries : List (Yaml × Yaml)) (vars : Scope) (y : Yaml),
      render (Yaml.mapping entries) vars = RO.ok y →
      ∃ l, y = Yaml.mapping l ∧ l.map Prod.fst = entries.map Prod.fst) ∧
    (∀ (k : String) (v : Yaml) (rest : List (Yaml × Yaml)) (vars : Scope),
      render (Yaml.mapping ((Yaml.str k, v) :: rest)) vars =
        RO.bind (render v vars) (fun r =>
          RO.bind (renderMap rest ((k, r) :: vars)) (fun rs =>
            RO.ok (Yaml.mapping ((Yaml.str k, r) :: rs))))) ∧
    (render (Yaml.mapping
        [(Yaml.str "a", Yaml.str "\x7b\x7b 1 \x7d\x7d"),
         (Yaml.str "b", Yaml.str "\x7b\x7b a \x7d\x7d")]) [] =
      RO.ok (Yaml.mapping
        [(Yaml.str "a", Yaml.number 1), (Yaml.str "b", Yaml.number 1)])) := by
  refine ⟨?_, ?_, rfl⟩
  · intro entries vars y h
    obtain ⟨l, hm, hy⟩ := render_mapping_ok h
    exact ⟨l, hy, renderMap_keys entries vars l hm⟩
  · intro k v rest vars
    rw [render, renderMap, RO.bind_assoc]
    cases hr : render v vars with
    | ok r => simp [RO.bind_assoc]
    | err k' m' => rfl
    | panicked m' => rfl

/-- C1 witness: the order/key-preservation part applied to the spec's
two-entry example, whose render hypothesis is discharged by the concrete
conjunct of the claim theorem itself. -/
theorem C1_mapping_scope_chain_witness :
    ∃ l, Yaml.mapping [(Yaml.str "a", Yaml.number 1), (Yaml.str "b", Yaml.number 1)] =
        Yaml.mapping l ∧
      l.map Prod.fst =
        [(Yaml.str "a", Yaml.str "\x7b\x7b 1 \x7d\x7d"),
         (Yaml.str "b", Yaml.str "\x7b\x7b a \x7d\x7d")].map Prod.fst :=
  C1_mapping_scope_chain.1
    [(Yaml.str "a", Yaml.str "\x7b\x7b 1 \x7d\x7d"),
     (Yaml.str "b", Yaml.str "\x7b\x7b a \x7d\x7d")] []
    (Yaml.mapping [(Yaml.str "a", Yaml.number 1), (Yaml.str "b", Yaml.number 1)])
    C1_mapping_scope_chain.2.2

/-- C6: a successfully rendered sequence has the same length as the input and
each element was rendered against the same incoming scope (no sibling
bindings), in order; the first failing element aborts the whole sequence
render, propagating its error unchanged; and the spec's example
`["\x7b\x7b x \x7d\x7d", "\x7b\x7b x \x7d\x7d"]` with `x = 5` renders to `[5, 5]`. -/
theorem C6_sequence_same_scope :
    (∀ (v : List Yaml) (vars : Scope) (y : Yaml),
      render (Yaml.seq v) vars = RO.ok y →
      ∃ rs, y = Yaml.seq rs ∧ rs.length = v.length ∧
        ∀ i (h1 : i < v.length) (h2 : i < rs.length),
          render (v.get ⟨i, h1⟩) vars = RO.ok (rs.get ⟨i, h2⟩)) ∧
    (∀ (pre : List Yaml) (x : Yaml) (rest : List Yaml) (vars : Scope) (k : EKind) (m : String),
      (∀ y ∈ pre, ∃ r, render y vars = RO.ok r) → render x vars = RO.err k m →
      render (Yaml.seq (pre ++ x :: rest)) vars = RO.err k m) ∧
    (render (Yaml.seq [Yaml.str "\x7b\x7b x \x7d\x7d", Yaml.str "\x7b\x7b x \x7d\x7d"])
        [("x", Yaml.number 5)] =
      RO.ok (Yaml.seq [Yaml.number 5, Yaml.number 5])) := by
  refine ⟨?_, ?_, rfl⟩
  · intro v vars y h
    obtain ⟨rs, hm, hy⟩ := render_seq_ok h
    obtain ⟨hlen, hget⟩ := renderSeq_ok_get v vars rs hm
    exact ⟨rs, hy, hlen, hget⟩
  · intro pre x rest vars k m hpre hx
    rw [render, renderSeq_first_err pre x rest vars k m hpre hx]
    rfl

/-- C6 witness: the first-failure part applied at a concrete sequence whose
middle element is null (which renders to an error), and the elementwise part
applied to the spec's `[5, 5]` example. -/
theorem C6_sequence_same_scope_witness :
    render (Yaml.seq [Yaml.bool true, Yaml.null, Yaml.bool false]) [] =
        RO.err EKind.renderFailed "Null is not a valid render value" ∧
    ∃ rs, Yaml.seq [Yaml.number 5, Yaml.number 5] = Yaml.seq rs ∧
      rs.length = [Yaml.str "\x7b\x7b x \x7d\x7d", Yaml.str "\x7b\x7b x \x7d\x7d"].length ∧
      ∀ i (h1 : i < [Yaml.str "\x7b\x7b x \x7d\x7d", Yaml.str "\x7b\x7b x \x7d\x7d"].length)
        (h2 : i < rs.length),
        render ([Yaml.str "\x7b\x7b x \x7d\x7d", Yaml.str "\x7b\x7b x \x7d\x7d"].get ⟨i, h1⟩)
            [("x", Yaml.number 5)] =
          RO.ok (rs.get ⟨i, h2⟩) :=
  ⟨C6_sequence_same_scope.2.1 [Yaml.bool true] Yaml.null [Yaml.bool false] []
      EKind.renderFailed "Null is not a valid render value"
      (fun y hy => ⟨Yaml.bool true, by simp at hy; subst hy; rfl⟩)
      rfl,
   C6_sequence_same_scope.1 [Yaml.str "\x7b\x7b x \x7d\x7d", Yaml.str "\x7b\x7b x \x7d\x7d"]
      [("x", Yaml.number 5)] (Yaml.seq [Yaml.number 5, Yaml.number 5])
      C6_sequence_same_scope.2.2⟩

/-- C7: referencing a variable that is unbound in the scope is a hard
evaluation error (strict undefined) — an interpolation of an unbound name
renders to the undefined-value engine error, never to empty text, and the
spec's example `\x7b\x7b missing_var \x7d\x7d` against the empty scope fails with the
generic rendering-failure domain error. -/
theorem C7_strict_undefined :
    (∀ (vars : Scope) (n : String), lookupScope vars n = none →
      renderChunks [Chunk.expr (Expr.var n)] vars = Except.error undefinedErr) ∧
    render_string "\x7b\x7b missing_var \x7d\x7d" [] =
      RO.err EKind.renderFailed "undefined value" := by
  refine ⟨?_, rfl⟩
  intro vars n h
  simp [renderChunks, renderChunk, evalExpr, h]

/-- C7 witness: the strict-undefined part applied to the empty scope and the
name `missing_var`. -/
theorem C7_strict_undefined_witness :
    renderChunks [Chunk.expr (Expr.var "missing_var")] [] = Except.error undefinedErr :=
  C7_strict_undefined.1 [] "missing_var" rfl

/-- C8: whenever the wrapped conditional template renders successfully,
`is_render_string` returns `false` exactly for the output `"false"` and
`true` for any other output; and the spec's three examples hold. -/
theorem C8_condition_evaluation :
    (∀ (s : String) (vars : Scope) (out : String),
      render_string ("\x7b% if " ++ s ++ " %\x7dtrue\x7b% else %\x7dfalse\x7b% endif %\x7d") vars =
        RO.ok out →
      is_render_string s vars = RO.ok (if out = "false" then false else true)) ∧
    is_render_string "boo == \x27test\x27" [("boo", Yaml.str "test")] = RO.ok true ∧
    is_render_string "false" [] = RO.ok false ∧
    is_render_string "true" [] = RO.ok true := by
  refine ⟨?_, rfl, rfl, rfl⟩
  intro s vars out h
  rw [is_render_string, h]
  by_cases h2 : out = "false" <;> simp [h2]

/-- C8 witness: the generic part applied to the expression `true` under the
empty scope, whose wrapped template renders to `"true"`. -/
theorem C8_condition_evaluation_witness :
    is_render_string "true" [] =
      RO.ok (if ("true" : String) = "false" then false else true) :=
  C8_condition_evaluation.1 "true" [] "true" rfl

/-- C9: `\x7b\x7b x \x7d\x7d` with `x` bound to `1` renders to `"1"`, and literal text
around an interpolation — leading/trailing whitespace and a trailing
newline — is emitted verbatim, with no implicit trimming. -/
theorem C9_whitespace_preserved :
    (∀ (a b : String) (vars : Scope) (n : String) (v : Yaml),
      lookupScope vars n = some v →
      renderChunks [Chunk.lit a, Chunk.expr (Expr.var n), Chunk.lit b] vars =
        Except.ok (a ++ printVal v ++ b)) ∧
    render_string "\x7b\x7b x \x7d\x7d" [("x", Yaml.number 1)] = RO.ok "1" ∧
    render_string " \x7b\x7b x \x7d\x7d" [("x", Yaml.number 1)] = RO.ok " 1" ∧
    render_string "\x7b\x7b x \x7d\x7d " [("x", Yaml.number 1)] = RO.ok "1 " ∧
    render_string "\x7b\x7b x \x7d\x7d\n" [("x", Yaml.number 1)] = RO.ok "1\n" := by
  refine ⟨?_, rfl, rfl, rfl, rfl⟩
  intro a b vars n v h
  simp [renderChunks, renderChunk, evalExpr, h, String.append_empty, String.append_assoc]

/-- C9 witness: the literal-preservation part applied at `a = " "`,
`b = "\n"`, `x` bound to `1`. -/
theorem C9_whitespace_preserved_witness :
    renderChunks [Chunk.lit " ", Chunk.expr (Expr.var "x"), Chunk.lit "\n"]
        [("x", Yaml.number 1)] =
      Except.ok (" " ++ printVal (Yaml.number 1) ++ "\n") :=
  C9_whitespace_preserved.1 " " "\n" [("x", Yaml.number 1)] "x" (Yaml.number 1) rfl

/-- C10: a string whose template evaluation produces empty text renders to
null (the empty document parsed by the structured-data reparse), not to an
empty string; in particular the empty string renders to null under every
scope. -/
theorem C10_empty_output_is_null :
    (∀ (s : String) (vars : Scope), render_string s vars = RO.ok "" →
      render (Yaml.str s) vars = RO.ok Yaml.null) ∧
    (∀ vars : Scope, render (Yaml.str "") vars = RO.ok Yaml.null) := by
  constructor
  · intro s vars h
    rw [render, h]
    rfl
  · intro vars
    rfl

/-- C10 witness: the general part applied to the empty template under the
empty scope. -/
theorem C10_empty_output_is_null_witness :
    render (Yaml.str "") [] = RO.ok Yaml.null :=
  C10_empty_output_is_null.1 "" [] rfl

end Rash
